import Mathlib

/-
Verification of the result-acquisition pipeline in scraper.py
(class WebsiteScraper: _setup_driver, scrape_single_url, scrape_multiple_urls).

Shallow embedding: the external world (browser driver, network, DOM) is an
explicit environment value Env describing what each external call does during
one scrape attempt.  Pure control flow, the locator chains, the content
threshold, the exception wrapping and the finally-block cleanup are translated
directly from the source.  Python exceptions become Except String; a raised
exception carries the string str(e).
-/

set_option maxRecDepth 8000

namespace RateScraper

/- String helpers.  pyStrip models Python str.strip() (drop leading and
trailing whitespace; Lean Char.isWhitespace covers the ASCII whitespace used
by the claims).  strContains models Python/CSS substring containment. -/

def isPrefixL : List Char → List Char → Bool
  | [], _ => true
  | _ :: _, [] => false
  | a :: as, b :: bs => a == b && isPrefixL as bs

def isInfixL (needle : List Char) : List Char → Bool
  | [] => isPrefixL needle []
  | c :: rest => isPrefixL needle (c :: rest) || isInfixL needle rest

def strContains (hay needle : String) : Bool :=
  isInfixL needle.data hay.data

def strLower (s : String) : String :=
  String.mk (s.data.map Char.toLower)

def strContainsCI (hay needle : String) : Bool :=
  strContains (strLower hay) (strLower needle)

def pyStrip (s : String) : String :=
  String.mk (((s.data.dropWhile Char.isWhitespace).reverse.dropWhile
    Char.isWhitespace).reverse)

/- Data model: the result dict built by scrape_single_url
(keys url, status, content, error; scraper.py lines 102-107). -/

inductive Status where
  | success : Status
  | error : Status
deriving DecidableEq

structure ScrapeResult where
  url : String
  status : Status
  content : String
  error : Option String
deriving DecidableEq

/- A DOM element as seen through the selenium calls the code makes:
tag name, the attributes used by the CSS selectors, the element text used by
the XPath text search, and is_displayed / is_enabled. -/

structure Elem where
  tag : String
  typeAttr : String
  placeholder : String
  nameAttr : String
  idAttr : String
  cssClasses : List String
  text : String
  displayed : Bool
  enabled : Bool
deriving DecidableEq

/- Outcome of _setup_driver (scraper.py lines 26-98): webdriver.Chrome may
raise before self.driver is assigned (constructFail), a later call such as
set_page_load_timeout may raise after the assignment (postConstructFail), or
setup succeeds.  Both failures are re-raised as
"Failed to initialize Chrome: " ++ str(e)  (line 98). -/

inductive SetupOutcome where
  | constructFail : String → SetupOutcome
  | postConstructFail : String → SetupOutcome
  | ok : SetupOutcome
deriving DecidableEq

/- Environment of one scrape attempt: what each external call does.
inputFail / submitFail / textFail model find_elements (or the per-button
execute_script) raising for the n-th selector of the respective loop; the
code catches those exceptions and moves to the next selector
(lines 142-143, 183-185, 203-205).  extract is the body-text read at line
240 (Except.error means find_element raised there).  quitFail models
driver.quit raising in the finally block (lines 260-264). -/

structure Env where
  setup : SetupOutcome
  navFail : Option String
  page : List Elem
  inputFail : Nat → Bool
  submitFail : Nat → Bool
  textFail : Nat → Bool
  clearFail : Option String
  sendKeysFail : Option String
  enterFail : Option String
  extract : Except String String
  quitFail : Option String

inductive SubmitAction where
  | clicked : Elem → SubmitAction
  | enterKey : SubmitAction
deriving DecidableEq

/- The input_selectors list (scraper.py lines 120-129), one predicate per CSS
selector, in source order:
  input[type=url], input[placeholder*=http], input[placeholder*=website],
  input[placeholder*=URL], input[name*=url], input[id*=url], textarea,
  input[type=text]. -/

def inputStrategies : List (Elem → Bool) :=
  [ fun e => e.tag == "input" && e.typeAttr == "url",
    fun e => e.tag == "input" && strContains e.placeholder "http",
    fun e => e.tag == "input" && strContains e.placeholder "website",
    fun e => e.tag == "input" && strContains e.placeholder "URL",
    fun e => e.tag == "input" && strContains e.nameAttr "url",
    fun e => e.tag == "input" && strContains e.idAttr "url",
    fun e => e.tag == "textarea",
    fun e => e.tag == "input" && e.typeAttr == "text" ]

/- The submit_selectors list (scraper.py lines 156-162), in source order:
  button[type=submit], input[type=submit], .submit-btn, .analyze-btn, button. -/

def submitStrategies : List (Elem → Bool) :=
  [ fun e => e.tag == "button" && e.typeAttr == "submit",
    fun e => e.tag == "input" && e.typeAttr == "submit",
    fun e => e.cssClasses.contains "submit-btn",
    fun e => e.cssClasses.contains "analyze-btn",
    fun e => e.tag == "button" ]

/- text_searches (scraper.py line 165) and the XPath
//button[contains(text(), t)] used for each entry (line 191): a button whose
text contains t, case-sensitively. -/

def text_searches : List String := ["Analyze", "Submit", "Start", "Rate"]

def textStrategyOf (t : String) : Elem → Bool :=
  fun e => e.tag == "button" && strContains e.text t

def textStrategies : List (Elem → Bool) :=
  text_searches.map textStrategyOf

/- One selector step: find_elements returns the matching elements in DOM
order and the loop takes the first one that is displayed and enabled
(lines 134-139, 172-180, 192-200). -/

def matchHit (p : Elem → Bool) (page : List Elem) : Option Elem :=
  page.find? (fun e => p e && e.displayed && e.enabled)

/- The selector loop: try each strategy in order; a strategy whose external
calls raise (fail i) is skipped, otherwise the first displayed and enabled
match wins. -/

def tryStrategiesGo (fail : Nat → Bool) (page : List Elem) :
    Nat → List (Elem → Bool) → Option Elem
  | _, [] => none
  | i, p :: rest =>
    if fail i then tryStrategiesGo fail page (i + 1) rest
    else
      match matchHit p page with
      | some e => some e
      | none => tryStrategiesGo fail page (i + 1) rest

def tryStrategies (fail : Nat → Bool) (strats : List (Elem → Bool))
    (page : List Elem) : Option Elem :=
  tryStrategiesGo fail page 0 strats

/- The input-field search (scraper.py lines 131-143). -/

def findInput (fail : Nat → Bool) (page : List Elem) : Option Elem :=
  tryStrategies fail inputStrategies page

/- The submit-control search (scraper.py lines 167-209): CSS selectors first,
then the four text searches, else the Enter keystroke on the input field. -/

def submitAction (sFail tFail : Nat → Bool) (page : List Elem) : SubmitAction :=
  match tryStrategies sFail submitStrategies page with
  | some b => SubmitAction.clicked b
  | none =>
    match tryStrategies tFail textStrategies page with
    | some b => SubmitAction.clicked b
    | none => SubmitAction.enterKey

/- Message produced at lines 247-250 when the extracted body text is not
longer than 200 characters: the inner raise is caught and re-wrapped. -/

def insufficientMsg : String :=
  "Failed to extract analysis content: Insufficient content extracted - analysis may not have completed"

/- Final extraction (scraper.py lines 239-250).  The wait loop at lines
217-235 only delays (its body-text reads and their exceptions are swallowed
at line 232 and do not affect the result), so it is not modelled.  The
extraction read either raises (wrapped at line 250) or yields text; text of
length at most 200 raises the insufficiency exception (wrapped the same
way). -/

def afterSubmit (env : Env) : Except String String :=
  match env.extract with
  | Except.error m => Except.error ("Failed to extract analysis content: " ++ m)
  | Except.ok t =>
    if t.length > 200 then Except.ok t
    else Except.error insufficientMsg

/- The body of the try block of scrape_single_url (lines 109-250), as the
exception-or-content it produces.  Absence of a usable input field raises at
line 146.  If no submit control was clicked, the Enter keystroke at line 209
is sent outside any local handler, so its failure propagates. -/

def scrape_attempt (env : Env) : Except String String :=
  match env.setup with
  | SetupOutcome.constructFail m =>
      Except.error ("Failed to initialize Chrome: " ++ m)
  | SetupOutcome.postConstructFail m =>
      Except.error ("Failed to initialize Chrome: " ++ m)
  | SetupOutcome.ok =>
    match env.navFail with
    | some m => Except.error m
    | none =>
      match findInput env.inputFail env.page with
      | none => Except.error "Could not find URL input field on RateMySite"
      | some _ =>
        match env.clearFail with
        | some m => Except.error m
        | none =>
          match env.sendKeysFail with
          | some m => Except.error m
          | none =>
            match submitAction env.submitFail env.textFail env.page with
            | SubmitAction.clicked _ => afterSubmit env
            | SubmitAction.enterKey =>
              match env.enterFail with
              | some m => Except.error m
              | none => afterSubmit env

/- scrape_single_url (lines 100-267): the result dict starts as
(url, error, "", None); on success content and status are overwritten
(lines 243-244); any exception is caught at line 252 and recorded as
status = error, error = str(e), content left at "". -/

def scrape_single_url (env : Env) (target_url : String) : ScrapeResult :=
  match scrape_attempt env with
  | Except.ok content =>
      { url := target_url, status := Status.success, content := content,
        error := none }
  | Except.error m =>
      { url := target_url, status := Status.error, content := "",
        error := some m }

/- self.driver is assigned at line 89 exactly when webdriver.Chrome returns;
the finally block (lines 257-265) quits and clears it only when it is set. -/

def driverAcquired (env : Env) : Bool :=
  match env.setup with
  | SetupOutcome.constructFail _ => false
  | SetupOutcome.postConstructFail _ => true
  | SetupOutcome.ok => true

/- State after one full call of scrape_single_url including the finally
block: the returned result, whether driver.quit was attempted (line 261,
attempted exactly when self.driver was set; its own failure is caught at
line 263), and the value of self.driver after line 265. -/

structure RunState where
  result : ScrapeResult
  quitAttempted : Bool
  driver : Option Unit

def scrape_single_run (env : Env) (target_url : String) : RunState :=
  { result := scrape_single_url env target_url,
    quitAttempted := driverAcquired env,
    driver := none }

/- scrape_multiple_urls (lines 269-282): entries whose str.strip() is empty
are skipped; otherwise scrape_single_url(url.strip()) is called and the
result appended.  The per-attempt environments are indexed by how many
attempts were made so far (the k-th processed URL sees envs k); the pacing
sleep at line 280 has no observable effect and is not modelled. -/

def scrape_multiple_go (envs : Nat → Env) : Nat → List String → List ScrapeResult
  | _, [] => []
  | k, url :: rest =>
    if pyStrip url = "" then scrape_multiple_go envs k rest
    else scrape_single_url (envs k) (pyStrip url) ::
      scrape_multiple_go envs (k + 1) rest

def scrape_multiple_urls (envs : Nat → Env) (urls : List String) :
    List ScrapeResult :=
  scrape_multiple_go envs 0 urls

/- The non-blank entries of the input, in order. -/

def nonblank (urls : List String) : List String :=
  urls.filter (fun u => !(pyStrip u == ""))

/- One scrape per listed URL, in order, attempt k using environment envs k:
the shape the batch output is proved equal to. -/

def scrapeNonblank (envs : Nat → Env) : Nat → List String → List ScrapeResult
  | _, [] => []
  | k, u :: rest =>
    scrape_single_url (envs k) (pyStrip u) :: scrapeNonblank envs (k + 1) rest

/- Definitions following the words of the claims, for the refinement
comparisons of C7 and C8 (clearly separated from the source embedding
above). -/

/- Formalisation of the free-text matching phase as claim C7 words it:
case-insensitive label matching against the vocabulary
analyze, submit, start, rate, generate. -/

def claimSubmitVocabulary : List String :=
  ["analyze", "submit", "start", "rate", "generate"]

def specTextSubmitSearch (page : List Elem) : Option Elem :=
  tryStrategies (fun _ => false)
    (claimSubmitVocabulary.map
      (fun w => fun e => e.tag == "button" && strContainsCI e.text w))
    page

/- Formalisation of the input locator as claim C8 words it: the ordered
strategies of the source, then a fallback to the first visible input of any
kind before reporting absence. -/

def specFindInput (fail : Nat → Bool) (page : List Elem) : Option Elem :=
  match findInput fail page with
  | some e => some e
  | none => page.find? (fun e => e.tag == "input" && e.displayed)

/- Modelled from the spec: the Score Synthesizer (spec section 4.4) is not
part of src/ (src holds only the browser-driven scraper variant, which never
calls it), so it is modelled here from the words of the spec: a ScoreSet is
a sparse mapping of the eight named categories to numeric strings; absent
categories default to the fixed baseline 78, 82, 75, 80, 85, 79, 83, 77 for
overall, consumer, developer, investor, clarity, visual, ux, trust; the
report is a fixed multi-section template with a header carrying the URL and
overall score and a company name derived from the domain (strip the scheme
and www., take the first label, title-case it). -/

structure ScoreSet where
  overall : Option String
  consumer : Option String
  developer : Option String
  investor : Option String
  clarity : Option String
  visual : Option String
  ux : Option String
  trust : Option String

def dropPrefixL (p l : List Char) : List Char :=
  if isPrefixL p l then l.drop p.length else l

def companyName (u : String) : String :=
  let host := ((dropPrefixL "www.".data
    (dropPrefixL "http://".data
      (dropPrefixL "https://".data u.data))).takeWhile (fun c => c ≠ '/'))
  match host.takeWhile (fun c => c ≠ '.') with
  | [] => "Site"
  | c :: cs => String.mk (c.toUpper :: cs)

def synthesizeTail (u : String) (s : ScoreSet) : String :=
  u ++ "\n" ++
  "Company: " ++ companyName u ++ "\n" ++
  "Overall Score: " ++ s.overall.getD "78" ++ "/100\n" ++
  "Consumer Appeal: " ++ s.consumer.getD "82" ++ "/100 - " ++
    "The site presents its offering clearly to end users.\n" ++
  "Developer Experience: " ++ s.developer.getD "75" ++ "/100 - " ++
    "Technical resources are reasonably discoverable.\n" ++
  "Investor Readiness: " ++ s.investor.getD "80" ++ "/100 - " ++
    "The value proposition is communicated adequately.\n" ++
  "Clarity: " ++ s.clarity.getD "85" ++ "/100 - " ++
    "Messaging is structured and easy to follow.\n" ++
  "Visual Design: " ++ s.visual.getD "79" ++ "/100 - " ++
    "The layout follows contemporary design conventions.\n" ++
  "UX: " ++ s.ux.getD "83" ++ "/100 - " ++
    "Navigation paths are predictable and consistent.\n" ++
  "Trust: " ++ s.trust.getD "77" ++ "/100 - " ++
    "The site provides customary trust signals.\n"

def synthesize (target_url : String) (s : ScoreSet) : String :=
  "UI/UX Analysis Report for " ++ synthesizeTail target_url s

/- Concrete instances used by witnesses and counterexamples. -/

def noFail : Nat → Bool := fun _ => false

def allFail : Nat → Bool := fun _ => true

/- A URL input field matching the first selector of input_selectors. -/
def urlInput : Elem :=
  { tag := "input", typeAttr := "url", placeholder := "", nameAttr := "",
    idAttr := "", cssClasses := [], text := "", displayed := true,
    enabled := true }

/- A visible, enabled input of a type no input selector covers. -/
def searchInput : Elem :=
  { tag := "input", typeAttr := "search", placeholder := "", nameAttr := "",
    idAttr := "", cssClasses := [], text := "", displayed := true,
    enabled := true }

/- A visible, enabled submit button matching button[type=submit]. -/
def submitBtn : Elem :=
  { tag := "button", typeAttr := "submit", placeholder := "", nameAttr := "",
    idAttr := "", cssClasses := [], text := "Go", displayed := true,
    enabled := true }

/- A visible, enabled button whose label matches the text search "Rate". -/
def rateBtn : Elem :=
  { tag := "button", typeAttr := "", placeholder := "", nameAttr := "",
    idAttr := "", cssClasses := [], text := "Rate my site",
    displayed := true, enabled := true }

/- A visible, enabled button labelled Generate report: matched by the
vocabulary of claim C7 (generate, case-insensitive) but by none of the four
case-sensitive source texts. -/
def genButton : Elem :=
  { tag := "button", typeAttr := "", placeholder := "", nameAttr := "",
    idAttr := "", cssClasses := [], text := "Generate report",
    displayed := true, enabled := true }

def longText : String := String.mk (List.replicate 250 'x')

/- Fully successful attempt: input field found, no button (Enter fallback),
body text of 250 characters. -/
def envLong : Env :=
  { setup := SetupOutcome.ok, navFail := none, page := [urlInput],
    inputFail := noFail, submitFail := noFail, textFail := noFail,
    clearFail := none, sendKeysFail := none, enterFail := none,
    extract := Except.ok longText, quitFail := none }

/- Same attempt but the extracted body text has only 11 characters. -/
def envShort : Env := { envLong with extract := Except.ok "short stuff" }

/- Navigation to the service fails with message boom. -/
def envBoom : Env := { envLong with navFail := some "boom" }

/- Navigation fails with an exception whose str() is the empty string. -/
def envEmptyMsg : Env := { envLong with navFail := some "" }

/- Page whose only submit candidate is genButton, with every CSS submit
lookup raising (the code catches this and moves on, lines 183-185). -/
def envGen : Env :=
  { envLong with page := [urlInput, genButton], submitFail := allFail }

/- Page whose only element is the uncovered search input. -/
def envSearch : Env := { envLong with page := [searchInput] }

/- Empty page: no input field at all. -/
def envEmptyPage : Env := { envLong with page := [] }

/- Two batch environment schedules agreeing at attempt 0. -/
def envsA : Nat → Env := fun _ => envBoom

def envsB : Nat → Env := fun n => if n = 0 then envBoom else envLong

def emptyScores : ScoreSet :=
  { overall := none, consumer := none, developer := none, investor := none,
    clarity := none, visual := none, ux := none, trust := none }

/- Helper lemmas. -/

theorem scrape_single_url_url (env : Env) (t : String) :
    (scrape_single_url env t).url = t := by
  unfold scrape_single_url
  cases scrape_attempt env <;> rfl

theorem scrape_multiple_go_eq (envs : Nat → Env) :
    ∀ (urls : List String) (k : Nat),
      scrape_multiple_go envs k urls = scrapeNonblank envs k (nonblank urls) := by
  intro urls
  induction urls with
  | nil => intro k; rfl
  | cons u rest ih =>
    intro k
    by_cases h : pyStrip u = ""
    · have hnb : nonblank (u :: rest) = nonblank rest := by
        simp [nonblank, List.filter_cons, h]
      rw [hnb.symm] at ih
      simpa [scrape_multiple_go, h] using ih k
    · have hnb : nonblank (u :: rest) = u :: nonblank rest := by
        simp [nonblank, List.filter_cons, h]
      simp [scrape_multiple_go, h, hnb, scrapeNonblank, ih (k + 1)]

theorem scrapeNonblank_length (envs : Nat → Env) :
    ∀ (l : List String) (k : Nat), (scrapeNonblank envs k l).length = l.length := by
  intro l
  induction l with
  | nil => intro k; rfl
  | cons u rest ih => intro k; simp [scrapeNonblank, ih (k + 1)]

theorem scrapeNonblank_get? (envs : Nat → Env) :
    ∀ (l : List String) (k i : Nat),
      (scrapeNonblank envs k l).get? i
        = (l.get? i).map (fun u => scrape_single_url (envs (k + i)) (pyStrip u)) := by
  intro l
  induction l with
  | nil => intro k i; simp [scrapeNonblank]
  | cons u rest ih =>
    intro k i
    cases i with
    | zero => simp [scrapeNonblank]
    | succ j =>
      have e : k + 1 + j = k + (j + 1) := by omega
      have h := ih (k + 1) j
      rw [e] at h
      simpa [scrapeNonblank] using h

theorem scrape_multiple_urls_get? (envs : Nat → Env) (urls : List String)
    (k : Nat) :
    (scrape_multiple_urls envs urls).get? k
      = ((nonblank urls).get? k).map
          (fun u => scrape_single_url (envs k) (pyStrip u)) := by
  unfold scrape_multiple_urls
  rw [scrape_multiple_go_eq, scrapeNonblank_get?]
  simp

/-- C1: for every input sequence of URL strings, scrape_multiple_urls returns
exactly one result record per non-blank (non-whitespace-only) input, in the
same order as those non-blank inputs appear, each produced by one call of
scrape_single_url on the stripped entry; blank entries produce no record. -/
theorem C1_batch_one_result_per_nonblank (envs : Nat → Env) (urls : List String) :
    scrape_multiple_urls envs urls = scrapeNonblank envs 0 (nonblank urls) ∧
    (scrape_multiple_urls envs urls).length = (nonblank urls).length := by
  constructor
  · exact scrape_multiple_go_eq envs urls 0
  · unfold scrape_multiple_urls
    rw [scrape_multiple_go_eq envs urls 0, scrapeNonblank_length]

/-- C3: every failure raised while processing one URL is caught inside
scrape_single_url and recorded as a status error result for that URL; the
k-th batch result is exactly one scrape of the k-th non-blank URL under the
k-th attempt environment (a single attempt, no retry), and it depends only on
that environment, so a failure in one iteration never affects prior or
subsequent results. -/
theorem C3_failures_local :
    (∀ (env : Env) (url m : String), scrape_attempt env = Except.error m →
      scrape_single_url env url
        = { url := url, status := Status.error, content := "", error := some m }) ∧
    (∀ (envs : Nat → Env) (urls : List String) (k : Nat),
      (scrape_multiple_urls envs urls).get? k
        = ((nonblank urls).get? k).map
            (fun u => scrape_single_url (envs k) (pyStrip u))) ∧
    (∀ (envs envs2 : Nat → Env) (urls : List String) (k : Nat),
      envs k = envs2 k →
      (scrape_multiple_urls envs urls).get? k
        = (scrape_multiple_urls envs2 urls).get? k) := by
  refine ⟨?_, ?_, ?_⟩
  · intro env url m h
    unfold scrape_single_url
    rw [h]
  · exact scrape_multiple_urls_get?
  · intro envs envs2 urls k h
    rw [scrape_multiple_urls_get?, scrape_multiple_urls_get?, h]

/-- C3 witness: a navigation failure with message boom is caught and recorded
for that URL; with one concrete input the batch result at position 0 is a
single scrape of the stripped entry, and two schedules agreeing at attempt 0
give the same result there. -/
theorem C3_witness :
    scrape_single_url envBoom "https://x.test"
      = { url := "https://x.test", status := Status.error, content := "",
          error := some "boom" } ∧
    (scrape_multiple_urls envsA ["https://a.test"]).get? 0
      = ((nonblank ["https://a.test"]).get? 0).map
          (fun u => scrape_single_url (envsA 0) (pyStrip u)) ∧
    (scrape_multiple_urls envsA ["https://a.test"]).get? 0
      = (scrape_multiple_urls envsB ["https://a.test"]).get? 0 :=
  ⟨C3_failures_local.1 envBoom "https://x.test" "boom" rfl,
   C3_failures_local.2.1 envsA ["https://a.test"] 0,
   C3_failures_local.2.2 envsA envsB ["https://a.test"] 0 rfl⟩

/-- C10: for every non-blank input URL, the url field of the corresponding
result record is the whitespace-stripped form of the input entry. -/
theorem C10_url_stripped (envs : Nat → Env) (urls : List String) (k : Nat)
    (u : String) (h : (nonblank urls).get? k = some u) :
    (scrape_multiple_urls envs urls).get? k
      = some (scrape_single_url (envs k) (pyStrip u)) ∧
    (scrape_single_url (envs k) (pyStrip u)).url = pyStrip u := by
  constructor
  · rw [scrape_multiple_urls_get?, h]
    rfl
  · exact scrape_single_url_url (envs k) (pyStrip u)

/-- C10 witness: an entry carrying surrounding whitespace yields a result
whose url is the stripped form. -/
theorem C10_witness :
    (scrape_multiple_urls envsA ["  https://a.test  "]).get? 0
      = some (scrape_single_url (envsA 0) "https://a.test") ∧
    (scrape_single_url (envsA 0) "https://a.test").url = "https://a.test" := by
  have h := C10_url_stripped envsA ["  https://a.test  "] 0 "  https://a.test  "
    (by decide)
  have hs : pyStrip "  https://a.test  " = "https://a.test" := by decide
  rw [hs] at h
  exact h

theorem scrape_attempt_ok {env : Env} {c : String}
    (h : scrape_attempt env = Except.ok c) :
    env.extract = Except.ok c ∧ 200 < c.length := by
  unfold scrape_attempt afterSubmit at h
  repeat' split at h
  all_goals simp_all

theorem scrape_attempt_reach {env : Env} {t : String}
    (hs : env.setup = SetupOutcome.ok) (hn : env.navFail = none)
    (hi : (findInput env.inputFail env.page).isSome = true)
    (hc : env.clearFail = none) (hk : env.sendKeysFail = none)
    (he : submitAction env.submitFail env.textFail env.page
            = SubmitAction.enterKey → env.enterFail = none)
    (hx : env.extract = Except.ok t) :
    scrape_attempt env
      = (if t.length > 200 then Except.ok t else Except.error insufficientMsg) := by
  obtain ⟨inp, hfi⟩ := Option.isSome_iff_exists.mp hi
  unfold scrape_attempt
  rw [hs, hn, hfi, hc, hk]
  cases hsub : submitAction env.submitFail env.textFail env.page with
  | clicked b => unfold afterSubmit; rw [hx]
  | enterKey =>
    rw [he hsub]
    unfold afterSubmit
    rw [hx]

/-- C2 counterexample: the claim that every error result carries a non-empty
error message fails on the code: result error copies str(e) verbatim
(line 254), so an environment whose navigation failure carries an empty
message yields a status error result whose error message is empty. -/
theorem C2_counterexample :
    ¬ (∀ (env : Env) (url : String),
        (scrape_single_url env url).status = Status.error →
        ∃ m, (scrape_single_url env url).error = some m ∧ m ≠ "") := by
  intro h
  obtain ⟨m, hm, hne⟩ := h envEmptyMsg "https://x.test" rfl
  have he : (scrape_single_url envEmptyMsg "https://x.test").error = some "" := rfl
  rw [he] at hm
  exact hne (Option.some.inj hm).symm

/-- C2 as amended: every result record of scrape_single_url with status error
has content equal to the empty string and carries an error message (the
caught exception text, which is empty only when that text is), and every
result with status success has non-empty content. -/
theorem C2_error_success_shape (env : Env) (url : String) :
    ((scrape_single_url env url).status = Status.error →
      (scrape_single_url env url).content = "" ∧
      (scrape_single_url env url).error ≠ none) ∧
    ((scrape_single_url env url).status = Status.success →
      (scrape_single_url env url).content ≠ "") := by
  unfold scrape_single_url
  cases ha : scrape_attempt env with
  | error m =>
    refine ⟨fun _ => ⟨rfl, by simp⟩, fun hs => ?_⟩
    simp at hs
  | ok c =>
    obtain ⟨-, hlen⟩ := scrape_attempt_ok ha
    refine ⟨fun hs => ?_, fun _ hemp => ?_⟩
    · simp at hs
    · simp only at hemp
      rw [hemp] at hlen
      simp at hlen

/-- C2 witness: a concrete failing attempt has empty content and a present
error message; a concrete successful attempt has non-empty content. -/
theorem C2_witness :
    ((scrape_single_url envBoom "https://x.test").content = "" ∧
      (scrape_single_url envBoom "https://x.test").error ≠ none) ∧
    (scrape_single_url envLong "https://x.test").content ≠ "" :=
  ⟨(C2_error_success_shape envBoom "https://x.test").1 rfl,
   (C2_error_success_shape envLong "https://x.test").2 rfl⟩

/-- C4 counterexample: when extraction yields content at or below the
threshold, this source surfaces a status error result for that URL (there is
no Score Synthesizer fallback in scraper.py), contradicting the claim that
no error result is surfaced. -/
theorem C4_counterexample :
    (scrape_single_url envShort "https://x.test").status = Status.error ∧
    (scrape_single_url envShort "https://x.test").error
      = some insufficientMsg := by
  constructor <;> rfl

/-- C4 as amended: when the extracted content is at or below the 200
character threshold, scrape_single_url reports status error for that URL
(this variant has no Score Synthesizer fallback; the insufficiency exception
of line 247 is surfaced through the generic handler). -/
theorem C4_insufficient_is_error (env : Env) (url t : String)
    (hx : env.extract = Except.ok t) (hlen : t.length ≤ 200) :
    (scrape_single_url env url).status = Status.error := by
  unfold scrape_single_url
  cases ha : scrape_attempt env with
  | error m => rfl
  | ok c =>
    obtain ⟨hex, hbig⟩ := scrape_attempt_ok ha
    rw [hx] at hex
    have heq : t = c := Except.ok.inj hex
    rw [heq] at hlen
    omega

/-- C4 witness: a concrete attempt whose body text has 11 characters ends in
a status error result. -/
theorem C4_witness :
    (scrape_single_url envShort "https://y.test").status = Status.error :=
  C4_insufficient_is_error envShort "https://y.test" "short stuff" rfl
    (by decide)

/-- C6: on an attempt that reaches extraction, the page text is declared
insufficient exactly when its length is at most 200 characters: text longer
than 200 yields status success with that text as content, and text of length
at most 200 yields the insufficiency error outcome. -/
theorem C6_threshold (env : Env) (url t : String)
    (hs : env.setup = SetupOutcome.ok) (hn : env.navFail = none)
    (hi : (findInput env.inputFail env.page).isSome = true)
    (hc : env.clearFail = none) (hk : env.sendKeysFail = none)
    (he : submitAction env.submitFail env.textFail env.page
            = SubmitAction.enterKey → env.enterFail = none)
    (hx : env.extract = Except.ok t) :
    (200 < t.length →
      scrape_single_url env url
        = { url := url, status := Status.success, content := t, error := none }) ∧
    (t.length ≤ 200 →
      scrape_single_url env url
        = { url := url, status := Status.error, content := "",
            error := some insufficientMsg }) := by
  have ha := scrape_attempt_reach hs hn hi hc hk he hx
  constructor
  · intro hlen
    unfold scrape_single_url
    rw [ha, if_pos hlen]
  · intro hlen
    unfold scrape_single_url
    rw [ha, if_neg (by omega)]

/-- C6 witness: a 250 character body text yields a success result with that
text; an 11 character body text yields the insufficiency error. -/
theorem C6_witness :
    scrape_single_url envLong "https://x.test"
      = { url := "https://x.test", status := Status.success,
          content := longText, error := none } ∧
    scrape_single_url envShort "https://x.test"
      = { url := "https://x.test", status := Status.error, content := "",
          error := some insufficientMsg } :=
  ⟨(C6_threshold envLong "https://x.test" longText rfl rfl (by decide) rfl rfl
      (fun _ => rfl) rfl).1 (by decide),
   (C6_threshold envShort "https://x.test" "short stuff" rfl rfl (by decide)
      rfl rfl (fun _ => rfl) rfl).2 (by decide)⟩

theorem scrape_attempt_quitFail (env : Env) (m : Option String) :
    scrape_attempt { env with quitFail := m } = scrape_attempt env := by
  cases env
  rfl

/-- C5: on every exit path of scrape_single_url the finally block leaves
self.driver reset to None; driver.quit is attempted exactly when a driver was
acquired (whenever webdriver.Chrome returned, including setup failures after
that point); and a failure of the cleanup itself is swallowed and never
alters the returned result. -/
theorem C5_cleanup (env : Env) (url : String) :
    (scrape_single_run env url).driver = none ∧
    (driverAcquired env = true →
      (scrape_single_run env url).quitAttempted = true) ∧
    (∀ m, (scrape_single_run { env with quitFail := m } url).result
        = (scrape_single_run env url).result) := by
  refine ⟨rfl, fun h => h, fun m => ?_⟩
  show scrape_single_url { env with quitFail := m } url
      = scrape_single_url env url
  unfold scrape_single_url
  rw [scrape_attempt_quitFail]

/-- C5 witness: on a concrete successful attempt the driver ends up cleared,
quit was attempted, and a failing quit leaves the result unchanged. -/
theorem C5_witness :
    (scrape_single_run envLong "https://x.test").driver = none ∧
    (scrape_single_run envLong "https://x.test").quitAttempted = true ∧
    (scrape_single_run { envLong with quitFail := some "quit failed" }
        "https://x.test").result
      = (scrape_single_run envLong "https://x.test").result :=
  ⟨(C5_cleanup envLong "https://x.test").1,
   (C5_cleanup envLong "https://x.test").2.1 rfl,
   (C5_cleanup envLong "https://x.test").2.2 (some "quit failed")⟩

/- Characterisations of the selector loop. -/

theorem tryStrategiesGo_some {fail : Nat → Bool} {page : List Elem} :
    ∀ (l : List (Elem → Bool)) (i : Nat) (e : Elem),
      tryStrategiesGo fail page i l = some e →
      e ∈ page ∧ e.displayed = true ∧ e.enabled = true ∧
        ∃ p, p ∈ l ∧ p e = true := by
  intro l
  induction l with
  | nil => intro i e h; simp [tryStrategiesGo] at h
  | cons p rest ih =>
    intro i e h
    unfold tryStrategiesGo at h
    by_cases hf : fail i
    · rw [if_pos hf] at h
      obtain ⟨hmem, hd, hen, q, hq, hqe⟩ := ih (i + 1) e h
      exact ⟨hmem, hd, hen, q, List.mem_cons_of_mem p hq, hqe⟩
    · rw [if_neg hf] at h
      cases hm : matchHit p page with
      | some x =>
        rw [hm] at h
        cases h
        have hmem := List.mem_of_find?_eq_some hm
        have hp := List.find?_some hm
        simp only [Bool.and_eq_true] at hp
        exact ⟨hmem, hp.1.2, hp.2, p, List.mem_cons_self p rest, hp.1.1⟩
      | none =>
        rw [hm] at h
        obtain ⟨hmem, hd, hen, q, hq, hqe⟩ := ih (i + 1) e h
        exact ⟨hmem, hd, hen, q, List.mem_cons_of_mem p hq, hqe⟩

theorem tryStrategiesGo_none {fail : Nat → Bool} {page : List Elem} :
    ∀ (l : List (Elem → Bool)) (i : Nat),
      tryStrategiesGo fail page i l = none →
      ∀ (j : Nat) (p : Elem → Bool), l.get? j = some p →
        fail (i + j) = false →
        ∀ e, e ∈ page → (p e && e.displayed && e.enabled) = false := by
  intro l
  induction l with
  | nil => intro i h j p hj; simp at hj
  | cons q rest ih =>
    intro i h j p hj hfj e hmem
    unfold tryStrategiesGo at h
    by_cases hf : fail i
    · rw [if_pos hf] at h
      cases j with
      | zero =>
        rw [Nat.add_zero] at hfj
        rw [hfj] at hf
        exact absurd hf (by simp)
      | succ j2 =>
        have e2 : i + (j2 + 1) = (i + 1) + j2 := by omega
        rw [e2] at hfj
        exact ih (i + 1) h j2 p (by simpa using hj) hfj e hmem
    · rw [if_neg hf] at h
      cases hm : matchHit q page with
      | some x => rw [hm] at h; exact absurd h (by simp)
      | none =>
        rw [hm] at h
        cases j with
        | zero =>
          have hpq : p = q := by
            have := hj
            simp at this
            exact this.symm
          rw [hpq]
          have := List.find?_eq_none.mp hm e hmem
          simpa using this
        | succ j2 =>
          have e2 : i + (j2 + 1) = (i + 1) + j2 := by omega
          rw [e2] at hfj
          exact ih (i + 1) h j2 p (by simpa using hj) hfj e hmem

/-- C7 counterexample: the source's free-text phase is case-sensitive over
Analyze, Submit, Start, Rate only (scraper.py line 165), not case-insensitive
over analyze, submit, start, rate, generate: a displayed, enabled button
labelled Generate report is matched by the vocabulary the claim describes but
by no source text search, and on a page where every CSS submit lookup raises
the code falls through to the Enter keystroke instead of clicking it. -/
theorem C7_counterexample :
    tryStrategies noFail textStrategies [genButton] = none ∧
    specTextSubmitSearch [genButton] = some genButton ∧
    submitAction allFail noFail [urlInput, genButton]
      = SubmitAction.enterKey := by
  refine ⟨?_, ?_, ?_⟩ <;> decide

/-- C7 as amended: the submit locator tries the five CSS selectors first
(button[type=submit], input[type=submit], .submit-btn, .analyze-btn, bare
button); only if none yields a displayed and enabled element does it run the
case-sensitive substring searches over the four texts Analyze, Submit, Start,
Rate (restricted to button elements); if those also fail it sends the Enter
keystroke to the input field, and any element clicked by the text phase is a
displayed, enabled button whose text contains one of the four texts. -/
theorem C7_submit_chain :
    (∀ (sFail tFail : Nat → Bool) (page : List Elem) (b : Elem),
      tryStrategies sFail submitStrategies page = some b →
      submitAction sFail tFail page = SubmitAction.clicked b) ∧
    (∀ (sFail tFail : Nat → Bool) (page : List Elem) (b : Elem),
      tryStrategies sFail submitStrategies page = none →
      tryStrategies tFail textStrategies page = some b →
      submitAction sFail tFail page = SubmitAction.clicked b) ∧
    (∀ (sFail tFail : Nat → Bool) (page : List Elem),
      tryStrategies sFail submitStrategies page = none →
      tryStrategies tFail textStrategies page = none →
      submitAction sFail tFail page = SubmitAction.enterKey) ∧
    (∀ (tFail : Nat → Bool) (page : List Elem) (b : Elem),
      tryStrategies tFail textStrategies page = some b →
      b.tag = "button" ∧ b.displayed = true ∧ b.enabled = true ∧
        ∃ w, w ∈ text_searches ∧ strContains b.text w = true) := by
  refine ⟨?_, ?_, ?_, ?_⟩
  · intro sFail tFail page b h
    unfold submitAction
    rw [h]
  · intro sFail tFail page b hcss htext
    unfold submitAction
    rw [hcss, htext]
  · intro sFail tFail page hcss htext
    unfold submitAction
    rw [hcss, htext]
  · intro tFail page b h
    obtain ⟨-, hd, hen, p, hp, hpb⟩ := tryStrategiesGo_some textStrategies 0 b h
    obtain ⟨w, hw, hwp⟩ := List.mem_map.mp hp
    rw [← hwp] at hpb
    unfold textStrategyOf at hpb
    simp only [Bool.and_eq_true, beq_iff_eq] at hpb
    exact ⟨hpb.1, hd, hen, w, hw, hpb.2⟩

/-- C7 witness: a button[type=submit] is clicked by the CSS phase; when every
CSS lookup raises, a button labelled Rate my site is clicked by the text
phase and is characterised by the vocabulary; with no candidates at all the
Enter fallback fires. -/
theorem C7_witness :
    submitAction noFail noFail [submitBtn] = SubmitAction.clicked submitBtn ∧
    submitAction allFail noFail [rateBtn] = SubmitAction.clicked rateBtn ∧
    submitAction allFail allFail [] = SubmitAction.enterKey ∧
    (rateBtn.tag = "button" ∧ rateBtn.displayed = true ∧
      rateBtn.enabled = true ∧
      ∃ w, w ∈ text_searches ∧ strContains rateBtn.text w = true) :=
  ⟨C7_submit_chain.1 noFail noFail [submitBtn] submitBtn (by decide),
   C7_submit_chain.2.1 allFail noFail [rateBtn] rateBtn (by decide) (by decide),
   C7_submit_chain.2.2.1 allFail allFail [] (by decide) (by decide),
   C7_submit_chain.2.2.2 noFail [rateBtn] rateBtn (by decide)⟩

/-- C8 counterexample: the input locator has no fallback to the first
visible input of any kind: a page whose only element is a displayed, enabled
input of type search matches no selector of input_selectors, so the source
locator reports absence (and scrape_single_url surfaces the corresponding
error result), while the locator the claim describes selects it. -/
theorem C8_counterexample :
    findInput noFail [searchInput] = none ∧
    specFindInput noFail [searchInput] = some searchInput ∧
    scrape_single_url envSearch "https://x.test"
      = { url := "https://x.test", status := Status.error, content := "",
          error := some "Could not find URL input field on RateMySite" } := by
  refine ⟨?_, ?_, ?_⟩ <;> decide

/-- C8 as amended: the input locator tries the ordered selector list and
returns the first displayed and enabled match (any element it returns is on
the page, displayed, enabled, and matched by one of the strategies); when it
returns nothing, no non-failing strategy matched any displayed and enabled
element on the page, and scrape_single_url reports the absence as a status
error result with the message of line 146 — there is no first-visible-input
fallback. -/
theorem C8_input_chain :
    (∀ (fail : Nat → Bool) (page : List Elem) (e : Elem),
      findInput fail page = some e →
      e ∈ page ∧ e.displayed = true ∧ e.enabled = true ∧
        ∃ p, p ∈ inputStrategies ∧ p e = true) ∧
    (∀ (fail : Nat → Bool) (page : List Elem),
      findInput fail page = none →
      ∀ (j : Nat) (p : Elem → Bool), inputStrategies.get? j = some p →
        fail j = false →
        ∀ e, e ∈ page → (p e && e.displayed && e.enabled) = false) ∧
    (∀ (env : Env) (url : String),
      env.setup = SetupOutcome.ok → env.navFail = none →
      findInput env.inputFail env.page = none →
      scrape_single_url env url
        = { url := url, status := Status.error, content := "",
            error := some "Could not find URL input field on RateMySite" }) := by
  refine ⟨?_, ?_, ?_⟩
  · intro fail page e h
    exact tryStrategiesGo_some inputStrategies 0 e h
  · intro fail page h j p hj hfj
    have hz : fail (0 + j) = false := by simpa using hfj
    exact tryStrategiesGo_none inputStrategies 0 h j p hj hz
  · intro env url hs hn hfi
    unfold scrape_single_url scrape_attempt
    rw [hs, hn, hfi]

/-- C8 witness: the url-typed input is returned by the locator and
characterised by the strategies; on an empty page the absence is surfaced as
the concrete error result. -/
theorem C8_witness :
    (urlInput ∈ ([urlInput] : List Elem) ∧ urlInput.displayed = true ∧
      urlInput.enabled = true ∧
      ∃ p, p ∈ inputStrategies ∧ p urlInput = true) ∧
    scrape_single_url envEmptyPage "https://w.test"
      = { url := "https://w.test", status := Status.error, content := "",
          error := some "Could not find URL input field on RateMySite" } :=
  ⟨C8_input_chain.1 noFail [urlInput] urlInput (by decide),
   C8_input_chain.2.2 envEmptyPage "https://w.test" rfl rfl (by decide)⟩

/-- C9: the Score Synthesizer, modelled from the spec, is a pure total
function: synthesize always returns non-empty report text, never fails, and
on equal ScoreSet inputs returns byte-identical output text. -/
theorem C9_synthesize_pure (u : String) (s : ScoreSet) :
    0 < (synthesize u s).length ∧
    ∀ s2, s2 = s → synthesize u s2 = synthesize u s := by
  constructor
  · unfold synthesize
    rw [String.length_append]
    have h : 0 < ("UI/UX Analysis Report for " : String).length := by decide
    omega
  · intro s2 h
    rw [h]

/-- C9 witness: at a concrete URL and the empty ScoreSet the report is
non-empty and reproducible. -/
theorem C9_witness :
    0 < (synthesize "https://example.com" emptyScores).length ∧
    synthesize "https://example.com" emptyScores
      = synthesize "https://example.com" emptyScores :=
  ⟨(C9_synthesize_pure "https://example.com" emptyScores).1,
   (C9_synthesize_pure "https://example.com" emptyScores).2 emptyScores rfl⟩

end RateScraper
